import Mathlib

/-!
Verification of the session-orchestration engine of `src/cogs/games.py`
(duel, food-emoji guessing round, culture trivia battle).

Modelling conventions:
* Python `dict` (`self.duels`, `self.food`, `self.battle`, score maps) is an
  association list `List (Nat × α)` in insertion order; `dictSet` updates in
  place when the key exists and appends otherwise, exactly like CPython dicts.
* `time.time()` timestamps are rationals (`ℚ`); Python `int(x)` on a float
  is truncation toward zero (`pyTrunc`).
* An `asyncio.Task` held in a `*_task` field is modelled by a Bool
  `timer_alive` (the task exists and has not been cancelled) plus, for duels,
  a generation counter `timerGen` naming the identity of the task created for
  the current round; `cancel()` sets `timer_alive := false`, and a fired timer
  event carries the generation of the task that fired, so a cancelled or
  superseded task's firing is a no-op.
* Handlers whose relevant check-then-mutate sequence is one synchronous block
  in the source (the registry scans and creations, the buzz claim arbitration,
  the guess/hint commands) are modelled as one atomic transition: asyncio runs
  one handler at a time between awaits.  The duel round is the exception and
  is modelled at await granularity: `on_message` suspends at the confirmation
  send between writing a move slot and the both-slots-full check, and
  `_resolve_round` suspends at its announces between snapshotting the slots
  and mutating the counters, so a handler is split at each await (`DmPhase`,
  `RoundInstr`) and a schedule chooses which suspended handler resumes.
  Calling `cancel()` on the task that is currently executing — as
  `_resolve_round` does to the running `_round_loop` task on the timer path —
  makes CPython deliver `CancelledError` at that task's next suspension
  point; `_announce`'s `except Exception` does not catch it (it is a
  `BaseException` on every Python that discord.py 2.x supports) and
  `_round_loop` catches it and returns.
* Removal of a session from its registry dict (`pop`) is the field
  `popped := true` on the session where a single-session model is used.
* Outbound chat messages, discord objects and the JSON persistence layer are
  not modelled; score state is the per-guild map `List (Nat × Int)`.
-/

/-- Insertion-ordered dict lookup: first binding of the key. -/
def dictGet {α : Type} : List (Nat × α) → Nat → Option α
  | [], _ => none
  | p :: d, k => if p.1 = k then some p.2 else dictGet d k

/-- `d.get(k, v0)` -/
def dictGetD {α : Type} (d : List (Nat × α)) (k : Nat) (v0 : α) : α :=
  (dictGet d k).getD v0

/-- `d[k] = v`: update in place when present (CPython keeps the slot), else append. -/
def dictSet {α : Type} : List (Nat × α) → Nat → α → List (Nat × α)
  | [], k, v => [(k, v)]
  | p :: d, k, v => if p.1 = k then (k, v) :: d else p :: dictSet d k v

/-- `d.pop(k, None)`: drop the binding. -/
def dictPop {α : Type} (d : List (Nat × α)) (k : Nat) : List (Nat × α) :=
  d.filter (fun p => ¬ p.1 = k)

/-- Python `str.lower()` (ASCII case mapping, which covers every string the
program compares). -/
def pyLower (s : String) : String := String.mk (s.toList.map Char.toLower)

/-- Python `str.upper()`. -/
def pyUpper (s : String) : String := String.mk (s.toList.map Char.toUpper)

/-- Python `str.strip()`: drop leading and trailing whitespace. -/
def pyStrip (s : String) : String :=
  String.mk (((s.toList.dropWhile Char.isWhitespace).reverse.dropWhile
    Char.isWhitespace).reverse)

/-- Python `int(x)` on a rational: truncation toward zero. -/
def pyTrunc (q : ℚ) : Int := if 0 ≤ q then ⌊q⌋ else -⌊-q⌋

-- -----------------------
-- Duel system (`games.py` lines 118-155, 266-620)
-- -----------------------

/-- `DUEL_MOVES = ("strike", "guard", "feint")` -/
def DUEL_MOVES : List String := ["strike", "guard", "feint"]

/-- The `beats` table of `duel_resolve`: `beats[m]` in the source; the source
dict raises `KeyError` off `DUEL_MOVES`, modelled as `none`. -/
def beats (m : String) : Option String :=
  if m = "strike" then some "feint"
  else if m = "feint" then some "guard"
  else if m = "guard" then some "strike"
  else none

/-- `duel_resolve` (lines 124-128): 0 = tie, 1 = challenger's move wins,
2 = opponent's move wins. -/
def duel_resolve (a_move b_move : String) : Nat :=
  if a_move = b_move then 0
  else if beats a_move = some b_move then 1 else 2

/-- `DuelState` (lines 131-154).  `popped` models presence in `self.duels`
(false = still registered); `timer_alive`/`timerGen` model `round_task` as
described in the file header; `timer_message_id` (pure presentation) is
dropped. -/
structure DuelState where
  challenger_id : Nat
  opponent_id : Nat
  created_at : ℚ
  channel_id : Nat
  accepted : Bool := false
  active : Bool := false
  ch_hp : Int := 3
  op_hp : Int := 3
  mode : String := "hp"
  ch_wins : Int := 0
  op_wins : Int := 0
  target_wins : Int := 2
  ch_move : Option String := none
  op_move : Option String := none
  round_started_at : ℚ := 0
  timer_alive : Bool := false
  timerGen : Nat := 0
  popped : Bool := false

/-- `_duel_expired` (lines 267-268). -/
def duel_expired (now : ℚ) (st : DuelState) : Prop :=
  now - st.created_at > 120

instance (now : ℚ) (st : DuelState) : Decidable (duel_expired now st) := by
  unfold duel_expired; infer_instance

/-- `_cancel_round_timer` (lines 276-280): the held task is cancelled. -/
def cancel_round_timer (st : DuelState) : DuelState :=
  { st with timer_alive := false }

/-- `_start_round` (lines 314-326): clear both slots, record the start time,
cancel any previous round task and schedule a fresh one (a new generation). -/
def start_round (now : ℚ) (st : DuelState) : DuelState :=
  { st with ch_move := none, op_move := none, round_started_at := now,
            timer_alive := true, timerGen := st.timerGen + 1 }

/-- Winner/loser decision of `_check_duel_end` (lines 418-435). -/
def duel_winner_loser (st : DuelState) : Option (Nat × Nat) :=
  if st.mode = "bo3" then
    if st.ch_wins ≥ st.target_wins then some (st.challenger_id, st.opponent_id)
    else if st.op_wins ≥ st.target_wins then some (st.opponent_id, st.challenger_id)
    else none
  else
    if st.ch_hp ≤ 0 then some (st.opponent_id, st.challenger_id)
    else if st.op_hp ≤ 0 then some (st.challenger_id, st.opponent_id)
    else none

/-- `_check_duel_end` (lines 418-452): on an end condition the duel is popped
from the registry, its round timer cancelled, and points are awarded (scoring
is outside this single-duel model).  Returns (ended?, new state). -/
def check_duel_end (st : DuelState) : Bool × DuelState :=
  match duel_winner_loser st with
  | none => (false, st)
  | some _ => (true, cancel_round_timer { st with popped := true })

/-- Shared tail of both resolution branches (lines 381-388 and 410-416):
clear both slots, end the duel if the end condition holds, else start the
next round. -/
def finish_round (now : ℚ) (st : DuelState) : DuelState :=
  let st2 := { st with ch_move := none, op_move := none }
  let r := check_duel_end st2
  if r.1 then r.2 else start_round now r.2

/-- Body of `_resolve_round` after the initial `_cancel_round_timer` call
(lines 359-416); `st` is the already-cancelled state. -/
def resolve_round_body (now : ℚ) (st : DuelState) (forced : Bool) : DuelState :=
  if forced ∧ (st.ch_move.isNone ∨ st.op_move.isNone) then
    if st.ch_move.isNone ∧ st.op_move.isNone then
      -- both missing: no damage, restart (lines 363-366)
      start_round now st
    else if st.ch_move.isNone then
      -- challenger forfeits (lines 368-373)
      finish_round now
        (if st.mode = "bo3" then { st with op_wins := st.op_wins + 1 }
         else { st with ch_hp := st.ch_hp - 1 })
    else
      -- opponent forfeits (lines 374-379)
      finish_round now
        (if st.mode = "bo3" then { st with ch_wins := st.ch_wins + 1 }
         else { st with op_hp := st.op_hp - 1 })
  else
    match st.ch_move, st.op_move with
    | some a, some b =>
      if duel_resolve a b = 0 then finish_round now st
      else if duel_resolve a b = 1 then
        finish_round now
          (if st.mode = "bo3" then { st with ch_wins := st.ch_wins + 1 }
           else { st with op_hp := st.op_hp - 1 })
      else
        finish_round now
          (if st.mode = "bo3" then { st with op_wins := st.op_wins + 1 }
           else { st with ch_hp := st.ch_hp - 1 })
    | _, _ => st  -- line 390-391: unforced with a slot empty, no change

/-- `_resolve_round` (lines 356-416): cancel the round timer first, then
apply the resolution logic. -/
def resolve_round (now : ℚ) (st0 : DuelState) (forced : Bool) : DuelState :=
  resolve_round_body now (cancel_round_timer st0) forced

/-- Total absolute change of the four health / round-win counters between two
states: one applied resolution moves this by 1. -/
def countersDelta (s t : DuelState) : Nat :=
  (s.ch_hp - t.ch_hp).natAbs + (s.op_hp - t.op_hp).natAbs +
    (s.ch_wins - t.ch_wins).natAbs + (s.op_wins - t.op_wins).natAbs

/-- A concrete mid-round state used by witnesses: round 1 of an active HP
duel, the opponent's move already submitted. -/
def duelWitnessSt : DuelState :=
  { challenger_id := 1, opponent_id := 2, created_at := 0, channel_id := 10,
    accepted := true, active := true, op_move := some "feint",
    timer_alive := true, timerGen := 1 }

/-- One DM-move handler (`on_message`, lines 455-504) split at its awaits:
after writing the sender's slot the handler suspends at the confirmation send
(line 501) before the both-slots-full check (line 503), and — once inside
`_resolve_round` — it suspends at the reveal announce (lines 396-404) between
the slot snapshot (lines 359-360) and the counter mutation (lines 395-408),
with the snapshot `(a, b)` held in its locals. -/
inductive DmPhase : Type
  | start (m : String)
  | afterSend (m : String)
  | afterReveal (a b : String)
  | done

/-- Advance one DM handler from its current suspension point to the next.
`isCh` says whether the sender is the challenger (line 492). -/
def dmAdvance (isCh : Bool) (st : DuelState) : DmPhase → DuelState × DmPhase
  | .start m =>
    -- lines 477-499: valid move, registered active duel, free slot → write
    -- it, then suspend at the confirmation send (line 501)
    if m ∈ DUEL_MOVES ∧ st.active = true ∧ st.popped = false then
      if isCh then
        if st.ch_move.isSome then (st, .done)
        else ({ st with ch_move := some m }, .afterSend m)
      else
        if st.op_move.isSome then (st, .done)
        else ({ st with op_move := some m }, .afterSend m)
    else (st, .done)
  | .afterSend _ =>
    -- line 503: both slots full?  Then `_resolve_round(forced=False)` runs
    -- its synchronous prefix — cancel the round task (line 357), snapshot
    -- both slots (lines 359-360), compute the outcome (line 393) — and
    -- suspends at the reveal announce (lines 396-404)
    match st.ch_move, st.op_move with
    | some a, some b => (cancel_round_timer st, .afterReveal a b)
    | _, _ => (st, .done)
  | .afterReveal a b =>
    -- lines 395-411: apply the snapshot's outcome to the counters and clear
    -- both slots.  The handler's continuation (`_check_duel_end`, the
    -- next-round start) adjusts no health or round-win counter and is cut
    -- here.
    if duel_resolve a b = 0 then
      ({ st with ch_move := none, op_move := none }, .done)
    else if duel_resolve a b = 1 then
      (if st.mode = "bo3" then
         { st with ch_wins := st.ch_wins + 1, ch_move := none, op_move := none }
       else { st with op_hp := st.op_hp - 1, ch_move := none, op_move := none }, .done)
    else
      (if st.mode = "bo3" then
         { st with op_wins := st.op_wins + 1, ch_move := none, op_move := none }
       else { st with ch_hp := st.ch_hp - 1, ch_move := none, op_move := none }, .done)
  | .done => (st, .done)

/-- The shared duel state plus the two participants' in-flight DM handlers
(discord.py dispatches every `on_message` in its own task, so two handlers
can be suspended at the same time). -/
structure DuelWorld where
  st : DuelState
  chTask : DmPhase
  opTask : DmPhase

/-- The event loop resumes one of the two handlers (`true` = challenger's). -/
def dmWorldStep (w : DuelWorld) (pickCh : Bool) : DuelWorld :=
  if pickCh then
    { w with st := (dmAdvance true w.st w.chTask).1,
             chTask := (dmAdvance true w.st w.chTask).2 }
  else
    { w with st := (dmAdvance false w.st w.opTask).1,
             opTask := (dmAdvance false w.st w.opTask).2 }

/-- Run a schedule of handler resumptions. -/
def runSchedule (w : DuelWorld) : List Bool → DuelWorld
  | [] => w
  | pick :: rest => runSchedule (dmWorldStep w pick) rest

/-- A fresh active hp-mode round: 3/3 health, both slots empty, round task
running. -/
def duelFresh : DuelState :=
  { challenger_id := 1, opponent_id := 2, created_at := 0, channel_id := 10,
    accepted := true, active := true, timer_alive := true, timerGen := 1 }

/-- A straight-line piece of handler code between awaits: a synchronous state
mutation, or a suspension point (an `await` that actually reaches the event
loop). -/
inductive RoundInstr : Type
  | sync (f : DuelState → DuelState)
  | awaitPoint

/-- Execute a straight-line instruction trace inside one task.  When
`cancelPending` is true — the task has called `cancel()` on itself, as
`_resolve_round` (line 357) does to the `_round_loop` task that is executing
it — CPython delivers `CancelledError` at the task's next suspension point;
`_announce`'s `except Exception` does not catch it, `_round_loop` catches it
(lines 351-352) and returns, so nothing after that await executes. -/
def run_task (cancelPending : Bool) : List RoundInstr → DuelState → DuelState
  | [], st => st
  | RoundInstr.sync f :: rest, st => run_task cancelPending rest (f st)
  | RoundInstr.awaitPoint :: rest, st =>
    if cancelPending then st else run_task cancelPending rest st

/-- The timeout path of `_resolve_round(forced=True)` on a round where only
the challenger's move is missing and no end condition holds, written as the
instruction trace the source executes: `_cancel_round_timer` (line 357), the
forfeit announce (line 369), the hp forfeit (line 373), the slot clearing
(lines 381-382) with `_check_duel_end` finding no winner (synchronous on this
input, lines 418-438), then `_start_round`: its slot clearing and timestamp
(lines 315-317), its announce (lines 319-323), and its timer
cancel-and-reschedule (lines 325-326). -/
def timeout_forfeit_trace (now : ℚ) : List RoundInstr :=
  [ .sync cancel_round_timer,
    .awaitPoint,
    .sync (fun st => { st with ch_hp := st.ch_hp - 1 }),
    .sync (fun st => { st with ch_move := none, op_move := none }),
    .sync (fun st => { st with ch_move := none, op_move := none,
                               round_started_at := now }),
    .awaitPoint,
    .sync (fun st => { st with timer_alive := true, timerGen := st.timerGen + 1 }) ]

-- -----------------------
-- Food Emoji Game (`games.py` lines 157-194, 621-789)
-- -----------------------

/-- `FOOD_BANK` (lines 160-171). -/
def FOOD_BANK : List (String × String) :=
  [("🍣", "sushi"), ("🍜", "ramen"), ("🍕", "pizza"), ("🌮", "taco"),
   ("🍔", "burger"), ("🍩", "donut"), ("🥞", "pancakes"), ("🍛", "curry"),
   ("🍦", "icecream"), ("🍙", "onigiri")]

def FOOD_DEFAULT_ROUNDS : Int := 1

def FOOD_DEFAULT_SECONDS : Int := 30

/-- `FOOD_GUESS_COOLDOWN = 1.25` seconds. -/
def FOOD_GUESS_COOLDOWN : ℚ := 5 / 4

/-- `FoodState` (lines 178-194); `timer_alive` models `timer_task` as for
duels; `last_guess_at` is the per-participant dict of last guess times. -/
structure FoodState where
  answer : String
  emoji : String
  started_at : ℚ
  active : Bool := true
  rounds_total : Int := 1
  round_index : Int := 1
  seconds : Int := 30
  hints_used : Nat := 0
  timer_alive : Bool := false
  channel_id : Nat := 0
  last_guess_at : List (Nat × ℚ) := []

/-- `_food_hint` (lines 622-632).  The source indexes `a[0]` and would raise
on an empty answer; every answer in `FOOD_BANK` is nonempty, and here the
front of an empty string falls back to the default character. -/
def food_hint (answer : String) (hints_used : Nat) : String :=
  let a := pyStrip (pyLower answer)
  if hints_used = 0 then
    "Hint: starts with **" ++ (pyUpper (a.take 1)) ++ "** and has **" ++
      toString a.length ++ "** letters."
  else if hints_used = 1 then
    "Hint: vowels revealed → **" ++
      String.mk (a.toList.map (fun ch =>
        if ch ∈ ['a', 'e', 'i', 'o', 'u'] then ch else '•')) ++ "**"
  else if hints_used = 2 then
    "Hint: first 2 letters → **" ++ (pyUpper (a.take 2)) ++ "**"
  else "No more hints 😈"

/-- `_cancel_food_timer` (lines 634-638). -/
def cancel_food_timer (st : FoodState) : FoodState :=
  { st with timer_alive := false }

/-- The `hint` command (lines 734-745) on the session looked up for the
guild: when a round is active, the counter is incremented unconditionally and
the hint text for the previous count is returned. -/
def hint_cmd (st : FoodState) : FoodState × Option String :=
  if st.active = false then (st, none)
  else
    ({ st with hints_used := st.hints_used + 1 },
     some (food_hint st.answer (st.hints_used + 1 - 1)))

/-- `n` successive hint requests. -/
def hintIter : Nat → FoodState → FoodState
  | 0, st => st
  | n + 1, st => hintIter n (hint_cmd st).1

/-- The scoring block of `guess` (lines 770-773). -/
def guess_points (now : ℚ) (st : FoodState) : Int :=
  max 1 (2 + (if max 1 (pyTrunc (now - st.started_at)) ≤ 10 then (1 : Int) else 0)
            - min (st.hints_used : Int) 2)

/-- The points formula exactly as the spec words claim C7: a speed bonus iff
solved within 10 seconds of the round start (stated for comparison with
`guess_points`, which is translated from the source). -/
def guess_points_claimed (now : ℚ) (st : FoodState) : Int :=
  max 1 (2 + (if now - st.started_at ≤ 10 then (1 : Int) else 0)
            - min (st.hints_used : Int) 2)

/-- The `guess` command (lines 747-789) on the session looked up for the
guild: empty answers are reported without a state change, guesses inside the
per-participant cooldown are silently dropped, a wrong guess only records the
guess time, and a correct guess deactivates the round, cancels its timer and
awards `guess_points`.  (The follow-up dealing of the next round is part of
the registry model.)  Returns the new state and the points awarded, if any. -/
def guess_cmd (now : ℚ) (st : FoodState) (author : Nat) (answer : String) :
    FoodState × Option Int :=
  if st.active = false then (st, none)
  else if answer = "" then (st, none)
  else if now - dictGetD st.last_guess_at author 0 < FOOD_GUESS_COOLDOWN then (st, none)
  else
    let st1 := { st with last_guess_at := dictSet st.last_guess_at author now }
    if pyLower (pyStrip answer) = st1.answer then
      (cancel_food_timer { st1 with active := false },
       some (guess_points now st1))
    else (st1, none)

/-- A concrete active guessing round used by witnesses and counterexamples:
round 1/1 for answer `sushi`, started at time 0, no hints, no guesses yet. -/
def exFood : FoodState :=
  { answer := "sushi", emoji := "🍣", started_at := 0, active := true,
    timer_alive := true, channel_id := 5 }

-- -----------------------
-- Culture Battle (`games.py` lines 196-239, 791-990)
-- -----------------------

/-- `CULTURE_Q` (lines 200-207). -/
def CULTURE_Q : List (String × String) :=
  [("Japan’s capital city is?", "tokyo"),
   ("Famous Japanese bullet train is called?", "shinkansen"),
   ("Traditional Japanese warrior class is?", "samurai"),
   ("Japanese currency is the?", "yen"),
   ("Famous mountain often seen in art is Mount?", "fuji"),
   ("The traditional Japanese tea ceremony centers on?", "matcha")]

def CULTURE_DEFAULT_Q : Int := 5

def CULTURE_DEFAULT_SECONDS : Int := 20

/-- `_norm` (lines 213-219): strip, lower, keep only alphanumeric characters. -/
def norm_answer (s : String) : String :=
  String.mk ((pyLower (pyStrip s)).toList.filter Char.isAlphanum)

/-- `BattleState` (lines 222-238); `timer_alive` models `timer_task`,
`timer_message_id` (presentation) is dropped. -/
structure BattleState where
  channel_id : Nat
  questions_left : List (String × String)
  active : Bool := false
  started_by : Nat := 0
  current_q : Option (String × String) := none
  asked_at : ℚ := 0
  seconds_per_q : Int := CULTURE_DEFAULT_SECONDS
  accepting : Bool := false
  buzz_winner_id : Option Nat := none
  timer_alive : Bool := false

/-- `_cancel_battle_timer` (lines 792-796). -/
def cancel_battle_timer (st : BattleState) : BattleState :=
  { st with timer_alive := false }

/-- `_ask_next_question` (lines 858-885) on the session: cancel the running
question timer; with the queue exhausted the battle ends, otherwise the next
question is dealt, `accepting` turns on, the claimant resets and a fresh
timer is scheduled. -/
def ask_next_question (now : ℚ) (st : BattleState) : BattleState :=
  if st.active = false then st
  else
    match st.questions_left with
    | [] =>
      { st with timer_alive := false, active := false, current_q := none,
                accepting := false, buzz_winner_id := none }
    | q :: rest =>
      { st with timer_alive := true, current_q := some q, questions_left := rest,
                asked_at := now, accepting := true, buzz_winner_id := none }

/-- A buzz attempt: who buzzed, in which channel, with which (optional)
answer text. -/
structure BuzzAttempt where
  author : Nat
  chan : Nat
  answer : Option String

/-- The synchronous claim-arbitration part of `buzz` (lines 934-951): all the
guards up to and including flipping `accepting` off and recording the
claimant.  The awards and the advance to the next question (lines 953-977)
happen after this block's awaits and are modelled in `buzz_cmd`. -/
def buzz_claim (st : BattleState) (author chan : Nat) (answer : Option String) :
    BattleState :=
  if st.active = false ∨ st.current_q.isNone then st
  else if ¬ (chan = st.channel_id) then st
  else
    match answer with
    | none => st
    | some a =>
      if a = "" then st
      else if st.accepting = false then st
      else { st with accepting := false, buzz_winner_id := some author }

/-- A sequence of buzz attempts processed in arrival order (all buzz
transitions are serialized by the event loop). -/
def runBuzzes (st : BattleState) (as : List BuzzAttempt) : BattleState :=
  as.foldl (fun s a => buzz_claim s a.author a.chan a.answer) st

/-- Validity of an attempt against the session's static data: right channel
and a nonempty answer (`if not answer` in the source). -/
def buzz_valid (st : BattleState) (a : BuzzAttempt) : Bool :=
  (a.chan == st.channel_id) &&
    (match a.answer with | none => false | some s => !(s == ""))

/-- `add_points` (lines 69-77) restricted to one guild's score map. -/
def add_points_m (scores : List (Nat × Int)) (uid : Nat) (pts : Int) :
    List (Nat × Int) :=
  dictSet scores uid (dictGetD scores uid 0 + pts)

/-- The whole `buzz` handler (lines 934-977): claim arbitration, then either
`add_points(…, 2)` on a `_norm`-matching answer or an explicit floored
write-back `max(0, cur - 1)`, and in both cases `_ask_next_question` (at the
later time `next_now`, after the sleep). -/
def buzz_cmd (next_now : ℚ) (st : BattleState) (scores : List (Nat × Int))
    (author chan : Nat) (answer : Option String) :
    BattleState × List (Nat × Int) :=
  if st.active = false ∨ st.current_q.isNone then (st, scores)
  else if ¬ (chan = st.channel_id) then (st, scores)
  else
    match answer with
    | none => (st, scores)
    | some ans =>
      if ans = "" then (st, scores)
      else if st.accepting = false then (st, scores)
      else
        match st.current_q with
        | none => (st, scores)
        | some (_, correct_raw) =>
          if norm_answer ans = norm_answer correct_raw then
            (ask_next_question next_now
               { st with accepting := false, buzz_winner_id := some author },
             add_points_m scores author 2)
          else
            (ask_next_question next_now
               { st with accepting := false, buzz_winner_id := some author },
             dictSet scores author (max 0 (dictGetD scores author 0 - 1)))

-- -----------------------
-- Registry-level commands (session creation / teardown)
-- -----------------------

/-- The fresh `DuelState` built by the `duel` command (lines 523-538). -/
def new_duel (now : ℚ) (author_id opponent_id channel_id : Nat)
    (mode : Option String) : DuelState :=
  { challenger_id := author_id, opponent_id := opponent_id, created_at := now,
    channel_id := channel_id, accepted := false, active := false,
    mode := if pyLower (pyStrip (mode.getD "")) = "bo3" then "bo3" else "hp",
    ch_hp := 3, op_hp := 3, ch_wins := 0, op_wins := 0, target_wins := 2 }

/-- The `duel` command (lines 507-545) after its input guards: rejected iff a
duel for the guild exists and is active or not yet expired; otherwise the new
pending duel replaces whatever was stored.  Returns (registry, created?). -/
def duel_cmd (now : ℚ) (duels : List (Nat × DuelState))
    (gid author_id opponent_id channel_id : Nat) (mode : Option String) :
    List (Nat × DuelState) × Bool :=
  match dictGet duels gid with
  | some existing =>
    if existing.active = true ∨ ¬ duel_expired now existing then (duels, false)
    else (dictSet duels gid (new_duel now author_id opponent_id channel_id mode), true)
  | none => (dictSet duels gid (new_duel now author_id opponent_id channel_id mode), true)

/-- `dueldecline` (lines 590-601): the challenged opponent removes the duel
from the registry.  The removed state is returned for inspection — note the
source never cancels `round_task` on this path. -/
def dueldecline_cmd (duels : List (Nat × DuelState)) (gid author : Nat) :
    List (Nat × DuelState) × Option DuelState :=
  match dictGet duels gid with
  | none => (duels, none)
  | some st =>
    if ¬ (author = st.opponent_id) then (duels, none)
    else (dictPop duels gid, some st)

/-- `duelcancel` (lines 603-615): a participant removes the duel and its
round timer is cancelled (line 614). -/
def duelcancel_cmd (duels : List (Nat × DuelState)) (gid author : Nat) :
    List (Nat × DuelState) × Option DuelState :=
  match dictGet duels gid with
  | none => (duels, none)
  | some st =>
    if ¬ (author = st.challenger_id ∨ author = st.opponent_id) then (duels, none)
    else (dictPop duels gid, some (cancel_round_timer st))

/-- The DM listener `on_message` (lines 455-504) over the whole registry: the
move goes to the first registry entry, in insertion order, whose duel is
active and has the sender as challenger or opponent. -/
def find_active_duel (duels : List (Nat × DuelState)) (author : Nat) :
    Option (Nat × DuelState) :=
  duels.find? (fun p =>
    p.2.active && (author == p.2.challenger_id || author == p.2.opponent_id))

/-- `on_message` (lines 455-504) after move parsing: record the sender's move
in the duel found by `find_active_duel`, rejecting a second submission for
the same round, and resolve immediately when both slots are now full.
Returns (registry, move recorded?). -/
def on_message_move (now : ℚ) (duels : List (Nat × DuelState)) (author : Nat)
    (m : String) : List (Nat × DuelState) × Bool :=
  if ¬ (m ∈ DUEL_MOVES) then (duels, false)
  else
    match find_active_duel duels author with
    | none => (duels, false)
    | some (gid, st) =>
      if author = st.challenger_id then
        if st.ch_move.isSome then (duels, false)
        else if st.op_move.isSome then
          (dictSet duels gid (resolve_round now { st with ch_move := some m } false), true)
        else (dictSet duels gid { st with ch_move := some m }, true)
      else
        if st.op_move.isSome then (duels, false)
        else if st.ch_move.isSome then
          (dictSet duels gid (resolve_round now { st with op_move := some m } false), true)
        else (dictSet duels gid { st with op_move := some m }, true)

/-- The fresh `FoodState` built by `_start_next_food_round` (lines 667-693);
the announce runs, the (fresh) timer is scheduled. -/
def new_food_state (now : ℚ) (channel_id : Nat)
    (rounds_total next_round seconds : Int) (pick : String × String) : FoodState :=
  { answer := pyLower pick.2, emoji := pick.1, started_at := now, active := true,
    rounds_total := rounds_total, round_index := next_round, seconds := seconds,
    hints_used := 0, timer_alive := true, channel_id := channel_id,
    last_guess_at := [] }

/-- `_start_next_food_round` (lines 667-693): store the freshly dealt round
for the guild. -/
def start_next_food_round (now : ℚ) (food : List (Nat × FoodState))
    (gid channel_id : Nat) (rounds_total next_round seconds : Int)
    (pick : String × String) : List (Nat × FoodState) :=
  dictSet food gid (new_food_state now channel_id rounds_total next_round seconds pick)

/-- `foodgame` (lines 695-706): an existing *active* game only has its timer
cancelled — creation is never rejected — and a fresh round 1 replaces the
stored session. `pick` stands for the `random.choice(FOOD_BANK)` draw. -/
def foodgame_cmd (now : ℚ) (food : List (Nat × FoodState)) (gid channel_id : Nat)
    (rounds : Option Int) (pick : String × String) : List (Nat × FoodState) :=
  let food1 :=
    match dictGet food gid with
    | some existing =>
      if existing.active = true then dictSet food gid (cancel_food_timer existing)
      else food
    | none => food
  start_next_food_round now food1 gid channel_id
    (match rounds with | none => FOOD_DEFAULT_ROUNDS | some r => max 1 (min r 20))
    1 FOOD_DEFAULT_SECONDS pick

/-- The fresh `BattleState` built by `battle start` (lines 906-925). -/
def new_battle (channel_id author : Nat) (n seconds : Option Int)
    (shuffled : List (String × String)) : BattleState :=
  { channel_id := channel_id,
    questions_left := shuffled.take
      (min (match n with | none => CULTURE_DEFAULT_Q | some k => max 1 (min k 50))
           (shuffled.length : Int)).toNat,
    active := true, started_by := author, current_q := none, asked_at := 0,
    seconds_per_q := (match seconds with
      | none => CULTURE_DEFAULT_SECONDS | some s => max 8 (min s 60)),
    accepting := false, buzz_winner_id := none, timer_alive := false }

/-- `_ask_next_question` (lines 858-861) looks its session up in the
registry; inactive or missing sessions are left alone. -/
def ask_next_question_reg (now : ℚ) (battle : List (Nat × BattleState))
    (gid : Nat) : List (Nat × BattleState) :=
  match dictGet battle gid with
  | none => battle
  | some st =>
    if st.active = false then battle
    else dictSet battle gid (ask_next_question now st)

/-- `battle start` (lines 906-932): no existence check at all — the new
battle replaces whatever session was stored (without cancelling its timer)
and the first question is dealt.  `shuffled` stands for the shuffled copy of
`CULTURE_Q`. -/
def battle_start_cmd (now : ℚ) (battle : List (Nat × BattleState))
    (gid channel_id author : Nat) (n seconds : Option Int)
    (shuffled : List (String × String)) : List (Nat × BattleState) :=
  ask_next_question_reg now
    (dictSet battle gid (new_battle channel_id author n seconds shuffled)) gid

-- -----------------------
-- Concrete states for witnesses and counterexamples
-- -----------------------

/-- An active battle in mid-question, started by participant 3. -/
def exBattleActive : BattleState :=
  { channel_id := 9,
    questions_left := [("Japanese currency is the?", "yen")],
    active := true, started_by := 3,
    current_q := some ("Japan’s capital city is?", "tokyo"),
    asked_at := 0, accepting := true, timer_alive := true }

/-- Two guilds, each with an active duel that participant 1 is in. -/
def duelA : DuelState :=
  { challenger_id := 1, opponent_id := 2, created_at := 0, channel_id := 11,
    accepted := true, active := true, timer_alive := true, timerGen := 1 }

def duelB : DuelState :=
  { challenger_id := 3, opponent_id := 1, created_at := 0, channel_id := 22,
    accepted := true, active := true, timer_alive := true, timerGen := 1 }

def exDuelsTwo : List (Nat × DuelState) := [(10, duelA), (20, duelB)]

-- -----------------------
-- Theorems
-- -----------------------

theorem dictGet_dictSet_self {α : Type} (d : List (Nat × α)) (k : Nat) (v : α) :
    dictGet (dictSet d k v) k = some v := by
  induction d with
  | nil => simp [dictGet, dictSet]
  | cons p d ih =>
    by_cases hk : p.1 = k
    · simp [dictGet, dictSet, hk]
    · simp [dictGet, dictSet, hk, ih]

theorem dictGet_dictSet_ne {α : Type} (d : List (Nat × α)) (k k' : Nat) (v : α)
    (hne : k' ≠ k) : dictGet (dictSet d k v) k' = dictGet d k' := by
  have hkk' : ¬ (k = k') := fun h => hne h.symm
  induction d with
  | nil => simp [dictGet, dictSet, hkk']
  | cons p d ih =>
    by_cases hk : p.1 = k
    · have hpk' : ¬ (p.1 = k') := hk ▸ hkk'
      simp [dictGet, dictSet, hk, hkk', hpk']
    · by_cases hk' : p.1 = k'
      · simp [dictGet, dictSet, hk, hk', hne]
      · simp [dictGet, dictSet, hk, hk', ih]

/-- claim C9: for valid moves, `duel_resolve` ties exactly on equal moves, the
challenger wins exactly on (strike,feint), (feint,guard), (guard,strike), and
the opponent wins on every remaining unequal pair. -/
theorem duel_resolve_cycle (a b : String)
    (ha : a ∈ DUEL_MOVES) (hb : b ∈ DUEL_MOVES) :
    (duel_resolve a b = 0 ↔ a = b) ∧
    (duel_resolve a b = 1 ↔
      (a, b) ∈ [("strike", "feint"), ("feint", "guard"), ("guard", "strike")]) ∧
    (duel_resolve a b = 2 ↔ (a ≠ b ∧
      (a, b) ∉ [("strike", "feint"), ("feint", "guard"), ("guard", "strike")])) := by
  simp only [DUEL_MOVES, List.mem_cons, List.not_mem_nil, or_false] at ha hb
  rcases ha with ha | ha | ha <;> rcases hb with hb | hb | hb <;>
    subst ha <;> subst hb <;> simp [duel_resolve, beats]

theorem duel_resolve_cycle_witness :
    ("strike" ∈ DUEL_MOVES) ∧ ("feint" ∈ DUEL_MOVES) ∧
    ((duel_resolve "strike" "feint" = 0 ↔ ("strike" : String) = "feint") ∧
     (duel_resolve "strike" "feint" = 1 ↔
       (("strike", "feint") : String × String) ∈
         [("strike", "feint"), ("feint", "guard"), ("guard", "strike")]) ∧
     (duel_resolve "strike" "feint" = 2 ↔ (("strike" : String) ≠ "feint" ∧
       (("strike", "feint") : String × String) ∉
         [("strike", "feint"), ("feint", "guard"), ("guard", "strike")]))) :=
  ⟨by decide, by decide,
    duel_resolve_cycle "strike" "feint" (by decide) (by decide)⟩

/-- claim C5 counterexample: the `hint` command has no cap on the counter —
four hint requests during one active round drive `hints_used` to 4, which
exceeds 3. -/
theorem hints_exceed_three_cex :
    (hintIter 4 exFood).hints_used = 4 ∧ ¬ ((hintIter 4 exFood).hints_used ≤ 3) := by
  decide

/-- claim C5 (amended): `hints_used` is incremented once per hint request
while the round is active, with no upper bound, so it can exceed 3; what is
capped is the hint content — every request beyond the third returns the fixed
"no more hints" message (and, separately, the scoring penalty uses
`min(hints_used, 2)`). -/
theorem hints_unbounded_content_capped :
    (∀ st : FoodState, st.active = true →
      (hint_cmd st).1.hints_used = st.hints_used + 1 ∧ (hint_cmd st).1.active = true) ∧
    (∀ (st : FoodState) (n : Nat), st.active = true →
      (hintIter n st).hints_used = st.hints_used + n) ∧
    (∀ (a : String) (k : Nat), 3 ≤ k → food_hint a k = "No more hints 😈") := by
  have hstep : ∀ st : FoodState, st.active = true →
      (hint_cmd st).1.hints_used = st.hints_used + 1 ∧ (hint_cmd st).1.active = true := by
    intro st h
    simp [hint_cmd, h]
  refine ⟨hstep, ?_, ?_⟩
  · intro st n
    induction n generalizing st with
    | zero => intro h; simp [hintIter]
    | succ n ih =>
      intro h
      obtain ⟨h1, h2⟩ := hstep st h
      have := ih (hint_cmd st).1 h2
      simp only [hintIter]
      omega
  · intro a k hk
    unfold food_hint
    rw [if_neg (by omega), if_neg (by omega), if_neg (by omega)]

/-- Witness for the amended C5 at concrete inputs. -/
theorem hints_unbounded_content_capped_witness :
    (exFood.active = true ∧
      (hint_cmd exFood).1.hints_used = exFood.hints_used + 1 ∧
      (hint_cmd exFood).1.active = true) ∧
    (exFood.active = true ∧ (hintIter 5 exFood).hints_used = exFood.hints_used + 5) ∧
    (3 ≤ 4 ∧ food_hint "sushi" 4 = "No more hints 😈") :=
  ⟨⟨rfl, hints_unbounded_content_capped.1 exFood rfl⟩,
   ⟨rfl, hints_unbounded_content_capped.2.1 exFood 5 rfl⟩,
   ⟨by decide, hints_unbounded_content_capped.2.2 "sushi" 4 (by decide)⟩⟩

/-- claim C7 counterexample: solving the `sushi` round 10.5 seconds after the
round start is not "within 10 seconds", so the claimed formula gives 2 points,
but the source truncates the elapsed time to 10 whole seconds and awards the
speed bonus: 3 points. -/
theorem guess_points_boundary_cex :
    (guess_cmd (21 / 2 : ℚ) exFood 7 "Sushi ").2 = some 3 ∧
    guess_points_claimed (21 / 2 : ℚ) exFood = 2 := by
  constructor
  · have hmatch : pyLower (pyStrip "Sushi ") = "sushi" := by decide
    have hne : ¬ ("Sushi " = "") := by decide
    simp only [guess_cmd, exFood, dictGetD, dictGet, FOOD_GUESS_COOLDOWN]
    norm_num [hne, hmatch, guess_points, pyTrunc]
  · simp only [guess_points_claimed, exFood]
    norm_num

/-- claim C7 (amended): on a correct, non-cooldown guess the points awarded
are `max(1, 2 + speed_bonus − hint_penalty)` with
`hint_penalty = min(hints_used, 2)`, but the speed bonus is granted iff the
elapsed time truncated to whole seconds is at most 10 — i.e. iff the round
was solved strictly before 11 seconds after the round start, not only within
10 seconds. -/
theorem guess_points_formula (now : ℚ) (st : FoodState) (author : Nat) (ans : String)
    (hact : st.active = true) (hans : ¬ ans = "")
    (hcool : ¬ (now - dictGetD st.last_guess_at author 0 < FOOD_GUESS_COOLDOWN))
    (hmatch : pyLower (pyStrip ans) = st.answer)
    (hnn : 0 ≤ now - st.started_at) :
    (guess_cmd now st author ans).2 =
      some (max 1 (2 + (if now - st.started_at < 11 then (1 : Int) else 0)
                     - min (st.hints_used : Int) 2)) := by
  have key : (max 1 (pyTrunc (now - st.started_at)) ≤ 10) ↔ (now - st.started_at < 11) := by
    unfold pyTrunc
    rw [if_pos hnn, max_le_iff]
    constructor
    · rintro ⟨-, h⟩
      have h2 := Int.floor_le_iff.mp h
      push_cast at h2
      linarith
    · intro h
      refine ⟨by norm_num, Int.floor_le_iff.mpr ?_⟩
      push_cast
      linarith
  have hactf : ¬ (st.active = false) := by simp [hact]
  simp only [guess_cmd, if_neg hactf, if_neg hans, if_neg hcool]
  simp [guess_points, hmatch, key]

/-- Witness for the amended C7: a correct guess at 5 seconds with no hints
awards `max 1 (2 + 1 - 0) = 3`. -/
theorem guess_points_formula_witness :
    exFood.active = true ∧ ¬ ("sushi" = "") ∧
    ¬ ((5 : ℚ) - dictGetD exFood.last_guess_at 7 0 < FOOD_GUESS_COOLDOWN) ∧
    pyLower (pyStrip "sushi") = exFood.answer ∧
    0 ≤ (5 : ℚ) - exFood.started_at ∧
    (guess_cmd 5 exFood 7 "sushi").2 =
      some (max 1 (2 + (if (5 : ℚ) - exFood.started_at < 11 then (1 : Int) else 0)
                     - min (exFood.hints_used : Int) 2)) :=
  ⟨rfl, by decide,
   by simp [exFood, dictGetD, dictGet, FOOD_GUESS_COOLDOWN]; norm_num,
   by decide,
   by norm_num [exFood],
   guess_points_formula 5 exFood 7 "sushi" rfl (by decide)
     (by simp [exFood, dictGetD, dictGet, FOOD_GUESS_COOLDOWN]; norm_num)
     (by decide) (by norm_num [exFood])⟩

theorem buzz_claim_noop (st : BattleState) (author chan : Nat) (ans : Option String)
    (h : st.accepting = false) : buzz_claim st author chan ans = st := by
  unfold buzz_claim
  repeat' split <;> first | rfl | simp_all

theorem runBuzzes_noop (st : BattleState) (as : List BuzzAttempt)
    (h : st.accepting = false) : runBuzzes st as = st := by
  induction as with
  | nil => rfl
  | cons a as ih =>
    unfold runBuzzes at ih ⊢
    rw [List.foldl_cons, buzz_claim_noop st a.author a.chan a.answer h]
    exact ih

theorem buzz_claim_accepts (st : BattleState) (a : BuzzAttempt)
    (hact : st.active = true) (hq : st.current_q.isSome = true)
    (hacc : st.accepting = true) (hv : buzz_valid st a = true) :
    buzz_claim st a.author a.chan a.answer =
      { st with accepting := false, buzz_winner_id := some a.author } := by
  unfold buzz_claim
  unfold buzz_valid at hv
  cases ha : a.answer with
  | none => rw [ha] at hv; simp at hv
  | some s =>
    rw [ha] at hv
    simp only [Bool.and_eq_true, beq_iff_eq, Bool.not_eq_true', beq_eq_false_iff_ne] at hv
    obtain ⟨hc, hs⟩ := hv
    have h1 : ¬ (st.active = false ∨ st.current_q.isNone = true) := by
      simp [hact]
      intro hno
      rw [hno] at hq
      simp at hq
    rw [if_neg h1, if_neg (not_not_intro hc)]
    simp [hs, hacc]

theorem buzz_claim_invalid (st : BattleState) (a : BuzzAttempt)
    (hv : buzz_valid st a = false) :
    buzz_claim st a.author a.chan a.answer = st := by
  unfold buzz_claim
  unfold buzz_valid at hv
  repeat' split <;> first | rfl | simp_all

/-- claim C3: starting from a dealt question (`accepting = true`), for any
arrival-ordered sequence of buzz attempts, the first valid attempt (right
channel, nonempty answer) — and only it — is recorded: `accepting` flips to
false, that participant becomes the claimant, and every later attempt leaves
the battle state untouched; with no valid attempt, nothing changes. -/
theorem buzz_exactly_one_claimant (st : BattleState) (as : List BuzzAttempt)
    (hact : st.active = true) (hq : st.current_q.isSome = true)
    (hacc : st.accepting = true) :
    runBuzzes st as =
      (match as.find? (buzz_valid st) with
       | some a => { st with accepting := false, buzz_winner_id := some a.author }
       | none => st) := by
  induction as with
  | nil => rfl
  | cons a as ih =>
    by_cases hv : buzz_valid st a = true
    · have hstep := buzz_claim_accepts st a hact hq hacc hv
      unfold runBuzzes
      rw [List.foldl_cons, hstep]
      have hrest : runBuzzes { st with accepting := false, buzz_winner_id := some a.author } as
          = { st with accepting := false, buzz_winner_id := some a.author } :=
        runBuzzes_noop _ as rfl
      unfold runBuzzes at hrest
      rw [hrest, List.find?_cons_of_pos _ hv]
    · have hstep := buzz_claim_invalid st a (by simpa using hv)
      unfold runBuzzes
      rw [List.foldl_cons, hstep]
      unfold runBuzzes at ih
      rw [ih, List.find?_cons_of_neg _ hv]

/-- Witness for C3: three buzzes race on the dealt question; the first
in-channel nonempty buzz (participant 4) wins the claim, the rest are
rejected. -/
theorem buzz_exactly_one_claimant_witness :
    exBattleActive.active = true ∧ exBattleActive.current_q.isSome = true ∧
    exBattleActive.accepting = true ∧
    runBuzzes exBattleActive
        [⟨4, 9, some "Kyoto"⟩, ⟨5, 9, some "Tokyo"⟩, ⟨6, 8, some "tokyo"⟩] =
      (match List.find? (buzz_valid exBattleActive)
          [⟨4, 9, some "Kyoto"⟩, ⟨5, 9, some "Tokyo"⟩, ⟨6, 8, some "tokyo"⟩] with
       | some a => { exBattleActive with accepting := false, buzz_winner_id := some a.author }
       | none => exBattleActive) :=
  ⟨rfl, rfl, rfl,
   buzz_exactly_one_claimant exBattleActive
     [⟨4, 9, some "Kyoto"⟩, ⟨5, 9, some "Tokyo"⟩, ⟨6, 8, some "tokyo"⟩]
     rfl rfl rfl⟩

theorem dictGetD_dictSet_self {α : Type} (d : List (Nat × α)) (k : Nat) (v v0 : α) :
    dictGetD (dictSet d k v) k v0 = v := by
  unfold dictGetD
  rw [dictGet_dictSet_self]
  rfl

theorem ask_next_current (now : ℚ) (st : BattleState) (h : st.active = true) :
    (ask_next_question now st).current_q = st.questions_left.head? := by
  unfold ask_next_question
  rw [if_neg (by simp [h])]
  cases hq : st.questions_left <;> simp [hq]

/-- claim C6: with a question dealt and `accepting` on, a buzz whose
normalized answer matches the expected answer raises the claimant's score by
exactly 2; a non-matching buzz sets it to `max 0 (previous − 1)` — never
below 0 — and in both cases the battle advances to the next question (the
head of the remaining queue, or the battle ends when none remain). -/
theorem buzz_scoring (next_now : ℚ) (st : BattleState) (scores : List (Nat × Int))
    (author : Nat) (ans q corr : String)
    (hact : st.active = true) (hq : st.current_q = some (q, corr))
    (hans : ¬ ans = "") (hacc : st.accepting = true) :
    (norm_answer ans = norm_answer corr →
      dictGetD (buzz_cmd next_now st scores author st.channel_id (some ans)).2 author 0
        = dictGetD scores author 0 + 2 ∧
      (buzz_cmd next_now st scores author st.channel_id (some ans)).1.current_q
        = st.questions_left.head?) ∧
    (¬ norm_answer ans = norm_answer corr →
      dictGetD (buzz_cmd next_now st scores author st.channel_id (some ans)).2 author 0
        = max 0 (dictGetD scores author 0 - 1) ∧
      0 ≤ dictGetD (buzz_cmd next_now st scores author st.channel_id (some ans)).2 author 0 ∧
      (buzz_cmd next_now st scores author st.channel_id (some ans)).1.current_q
        = st.questions_left.head?) := by
  have h1 : ¬ (st.active = false ∨ st.current_q.isNone = true) := by
    simp [hact, hq]
  have hcur : (ask_next_question next_now
      { st with current_q := some (q, corr), accepting := false,
                buzz_winner_id := some author }).current_q
      = st.questions_left.head? :=
    ask_next_current next_now _ hact
  unfold buzz_cmd
  rw [if_neg h1, if_neg (not_not_intro rfl), hq]
  simp only [if_neg hans, if_neg (by simp [hacc] : ¬ (st.accepting = false))]
  constructor
  · intro hmatch
    rw [if_pos hmatch]
    refine ⟨?_, hcur⟩
    unfold add_points_m
    exact dictGetD_dictSet_self scores author _ 0
  · intro hmatch
    rw [if_neg hmatch]
    refine ⟨?_, ?_, hcur⟩
    · exact dictGetD_dictSet_self scores author _ 0
    · rw [dictGetD_dictSet_self scores author _ 0]
      exact le_max_left 0 _

/-- Witness for C6: participant 7 buzzes `Tokyo!` on the capital question in
the concrete battle state. -/
theorem buzz_scoring_witness :
    exBattleActive.active = true ∧
    exBattleActive.current_q = some ("Japan’s capital city is?", "tokyo") ∧
    ¬ ("Tokyo!" = "") ∧ exBattleActive.accepting = true ∧
    ((norm_answer "Tokyo!" = norm_answer "tokyo" →
      dictGetD (buzz_cmd 21 exBattleActive [(7, 5)] 7 exBattleActive.channel_id
          (some "Tokyo!")).2 7 0 = dictGetD [(7, 5)] 7 0 + 2 ∧
      (buzz_cmd 21 exBattleActive [(7, 5)] 7 exBattleActive.channel_id
          (some "Tokyo!")).1.current_q = exBattleActive.questions_left.head?) ∧
    (¬ norm_answer "Tokyo!" = norm_answer "tokyo" →
      dictGetD (buzz_cmd 21 exBattleActive [(7, 5)] 7 exBattleActive.channel_id
          (some "Tokyo!")).2 7 0 = max 0 (dictGetD [(7, 5)] 7 0 - 1) ∧
      0 ≤ dictGetD (buzz_cmd 21 exBattleActive [(7, 5)] 7 exBattleActive.channel_id
          (some "Tokyo!")).2 7 0 ∧
      (buzz_cmd 21 exBattleActive [(7, 5)] 7 exBattleActive.channel_id
          (some "Tokyo!")).1.current_q = exBattleActive.questions_left.head?)) :=
  ⟨rfl, rfl, by decide, rfl,
   buzz_scoring 21 exBattleActive [(7, 5)] 7 "Tokyo!" "Japan’s capital city is?" "tokyo"
     rfl rfl (by decide) rfl⟩

/-- claim C2 counterexample: with an active battle (started by participant 3,
mid-question) registered for guild 1, `battle start` is not rejected — it
replaces the stored session with a brand-new battle started by participant 7,
so the existing session is not left unchanged. -/
theorem battle_start_replaces_cex :
    (dictGet (battle_start_cmd 100 [(1, exBattleActive)] 1 9 7 none none CULTURE_Q) 1).map
        BattleState.started_by = some 7 ∧
    exBattleActive.started_by = 3 ∧ ¬ ((7 : Nat) = 3) :=
  ⟨rfl, rfl, by decide⟩

/-- claim C2 (amended): only the duel start command enforces the
one-session-per-kind invariant — it is rejected, with the registry unchanged,
while a stored duel is active or not yet expired.  The guess-round and battle
start commands never reject: `foodgame` replaces the stored session with a
fresh round 1 (cancelling the old round's timer first) and `battle start`
replaces the stored session with a newly dealt battle (without touching the
old session's timer). -/
theorem session_start_policy :
    (∀ (now : ℚ) (duels : List (Nat × DuelState)) (gid a o c : Nat)
        (m : Option String) (ex : DuelState), dictGet duels gid = some ex →
        ex.active = true ∨ ¬ duel_expired now ex →
        duel_cmd now duels gid a o c m = (duels, false)) ∧
    (∀ (now : ℚ) (food : List (Nat × FoodState)) (gid chan : Nat)
        (rounds : Option Int) (pick : String × String),
        dictGet (foodgame_cmd now food gid chan rounds pick) gid =
          some (new_food_state now chan
            (match rounds with | none => FOOD_DEFAULT_ROUNDS | some r => max 1 (min r 20))
            1 FOOD_DEFAULT_SECONDS pick)) ∧
    (∀ (now : ℚ) (battle : List (Nat × BattleState)) (gid chan author : Nat)
        (n sec : Option Int) (qs : List (String × String)),
        dictGet (battle_start_cmd now battle gid chan author n sec qs) gid =
          some (ask_next_question now (new_battle chan author n sec qs))) := by
  refine ⟨?_, ?_, ?_⟩
  · intro now duels gid a o c m ex hget hcond
    simp only [duel_cmd, hget]
    rw [if_pos hcond]
  · intro now food gid chan rounds pick
    unfold foodgame_cmd start_next_food_round
    exact dictGet_dictSet_self _ _ _
  · intro now battle gid chan author n sec qs
    unfold battle_start_cmd ask_next_question_reg
    simp only [dictGet_dictSet_self]
    rw [if_neg (by simp [new_battle] : ¬ ((new_battle chan author n sec qs).active = false))]
    exact dictGet_dictSet_self _ _ _

/-- Witness for the amended C2 at concrete inputs: a pending, unexpired duel
rejects a second `duel`; `foodgame` and `battle start` overwrite. -/
theorem session_start_policy_witness :
    (dictGet [(1, duelA)] 1 = some duelA ∧
      (duelA.active = true ∨ ¬ duel_expired 60 duelA) ∧
      duel_cmd 60 [(1, duelA)] 1 4 5 11 none = ([(1, duelA)], false)) ∧
    dictGet (foodgame_cmd 60 [(1, exFood)] 1 5 none ("🍜", "ramen")) 1 =
      some (new_food_state 60 5 FOOD_DEFAULT_ROUNDS 1 FOOD_DEFAULT_SECONDS ("🍜", "ramen")) ∧
    dictGet (battle_start_cmd 60 [(1, exBattleActive)] 1 9 7 none none CULTURE_Q) 1 =
      some (ask_next_question 60 (new_battle 9 7 none none CULTURE_Q)) :=
  ⟨⟨rfl, Or.inl rfl,
    session_start_policy.1 60 [(1, duelA)] 1 4 5 11 none duelA rfl (Or.inl rfl)⟩,
   session_start_policy.2.1 60 [(1, exFood)] 1 5 none ("🍜", "ramen"),
   session_start_policy.2.2 60 [(1, exBattleActive)] 1 9 7 none none CULTURE_Q⟩

/-- claim C8 (code bug): `dueldecline` removes the duel from the registry
without cancelling its round timer.  For the concrete active duel with a
running round task, the opponent's decline pops the session while
`timer_alive` is still true — the round loop keeps running against the
removed session.  `duelcancel` on the same state does cancel the timer. -/
theorem dueldecline_leaves_timer_running :
    dueldecline_cmd [(1, duelWitnessSt)] 1 2 = ([], some duelWitnessSt) ∧
    duelWitnessSt.active = true ∧ duelWitnessSt.timer_alive = true ∧
    (duelcancel_cmd [(1, duelWitnessSt)] 1 2).2 = some (cancel_round_timer duelWitnessSt) ∧
    (cancel_round_timer duelWitnessSt).timer_alive = false :=
  ⟨rfl, rfl, rfl, rfl, rfl⟩

/-- claim C10: a valid duel move arriving by DM is routed to the duel that
`find_active_duel` locates — the first registry entry, in insertion
(iteration) order over all guilds, whose duel is active with the sender as
challenger or opponent.  (a) For every valid move, every other guild's entry
is untouched, and the selection does not depend on the move text, so the
sender cannot steer which guild's duel receives it; (b)/(c) when the sender's
slot in that duel is free (and the other slot is too), the move is recorded
there, and only there. -/
theorem dm_move_first_duel (now : ℚ) (duels : List (Nat × DuelState))
    (author : Nat) (m : String) (gid : Nat) (st : DuelState)
    (hm : m ∈ DUEL_MOVES)
    (hfind : find_active_duel duels author = some (gid, st)) :
    (∀ m', m' ∈ DUEL_MOVES → ∀ g', ¬ g' = gid →
      dictGet (on_message_move now duels author m').1 g' = dictGet duels g') ∧
    (author = st.challenger_id → st.ch_move = none → st.op_move = none →
      (on_message_move now duels author m).1 = dictSet duels gid { st with ch_move := some m } ∧
      (on_message_move now duels author m).2 = true) ∧
    (¬ author = st.challenger_id → st.op_move = none → st.ch_move = none →
      (on_message_move now duels author m).1 = dictSet duels gid { st with op_move := some m } ∧
      (on_message_move now duels author m).2 = true) := by
  refine ⟨?_, ?_, ?_⟩
  · intro m' hm' g' hg'
    unfold on_message_move
    rw [if_neg (not_not_intro hm')]
    simp only [hfind]
    repeat' split
    all_goals first
      | rfl
      | exact dictGet_dictSet_ne duels gid g' _ hg'
  · intro hch hcm hom
    unfold on_message_move
    rw [if_neg (not_not_intro hm)]
    simp only [hfind]
    rw [if_pos hch, if_neg (by simp [hcm]), if_neg (by simp [hom])]
    exact ⟨rfl, rfl⟩
  · intro hch hom hcm
    unfold on_message_move
    rw [if_neg (not_not_intro hm)]
    simp only [hfind]
    rw [if_neg hch, if_neg (by simp [hom]), if_neg (by simp [hcm])]
    exact ⟨rfl, rfl⟩

/-- Witness for C10: participant 1 is the challenger of guild 10's duel and
the opponent of guild 20's; a DM move lands in guild 10's duel (the first in
registry order) and leaves guild 20's untouched. -/
theorem dm_move_first_duel_witness :
    ("strike" ∈ DUEL_MOVES) ∧
    find_active_duel exDuelsTwo 1 = some (10, duelA) ∧
    ((∀ m', m' ∈ DUEL_MOVES → ∀ g', ¬ g' = 10 →
        dictGet (on_message_move 7 exDuelsTwo 1 m').1 g' = dictGet exDuelsTwo g') ∧
     (1 = duelA.challenger_id → duelA.ch_move = none → duelA.op_move = none →
        (on_message_move 7 exDuelsTwo 1 "strike").1 =
          dictSet exDuelsTwo 10 { duelA with ch_move := some "strike" } ∧
        (on_message_move 7 exDuelsTwo 1 "strike").2 = true) ∧
     (¬ (1 = duelA.challenger_id) → duelA.op_move = none → duelA.ch_move = none →
        (on_message_move 7 exDuelsTwo 1 "strike").1 =
          dictSet exDuelsTwo 10 { duelA with op_move := some "strike" } ∧
        (on_message_move 7 exDuelsTwo 1 "strike").2 = true)) :=
  ⟨by decide, rfl, dm_move_first_duel 7 exDuelsTwo 1 "strike" 10 duelA (by decide) rfl⟩

/-- claim C1 (code bug): two concurrent DM handlers double-resolve one round.
From a fresh 3/3 hp round with both slots empty, the challenger's handler
writes `strike` and suspends at its confirmation send; the opponent's handler
writes `feint` and suspends likewise; each then passes the both-slots-full
check (line 503) before the other has cleared the slots, and each suspends at
the reveal announce before mutating — so both apply the snapshot outcome: the
opponent's health drops twice, 3 → 1.  The counters are adjusted twice within
a single round, the double damage the claim says never occurs. -/
theorem dm_double_resolution :
    (runSchedule ⟨duelFresh, DmPhase.start "strike", DmPhase.start "feint"⟩
        [true, false, true, false, true, false]).st.op_hp = 1 ∧
    duelFresh.op_hp = 3 ∧
    countersDelta duelFresh
      (runSchedule ⟨duelFresh, DmPhase.start "strike", DmPhase.start "feint"⟩
        [true, false, true, false, true, false]).st = 2 ∧
    ¬ (countersDelta duelFresh
        (runSchedule ⟨duelFresh, DmPhase.start "strike", DmPhase.start "feint"⟩
          [true, false, true, false, true, false]).st ≤ 1) := by
  refine ⟨rfl, rfl, rfl, by decide⟩

/-- claim C4 (code bug): the timeout forfeit never applies.  On the concrete
mid-round state — challenger's slot empty, opponent submitted `feint` — the
forced-resolution trace run with the self-cancellation the source performs
(line 357 cancels the very task executing the trace) stops at the first
await: health is unchanged, the opponent's slot is never cleared, and no next
round is scheduled, leaving the round dead.  The same trace run without the
self-cancellation reproduces exactly `resolve_round` — the behavior the claim
describes — which does apply the forfeit. -/
theorem duel_timeout_forfeit_bug :
    run_task true (timeout_forfeit_trace 30) duelWitnessSt
      = cancel_round_timer duelWitnessSt ∧
    run_task false (timeout_forfeit_trace 30) duelWitnessSt
      = resolve_round 30 duelWitnessSt true ∧
    (cancel_round_timer duelWitnessSt).ch_hp = duelWitnessSt.ch_hp ∧
    (cancel_round_timer duelWitnessSt).op_move = some "feint" ∧
    (cancel_round_timer duelWitnessSt).timer_alive = false ∧
    (resolve_round 30 duelWitnessSt true).ch_hp = duelWitnessSt.ch_hp - 1 := by
  refine ⟨rfl, rfl, rfl, rfl, rfl, rfl⟩
